import Mathlib

/-!
Shallow embedding of the connectivity and power resilience core of the Aiolos
weather-station firmware (src/firmware), covering:

* the ModemManager connection-failure tracker
  (`_recordConnectionFailure`, `_recordConnectionSuccess`, `needsReset`,
  `resetModem`; ModemManager.cpp),
* the AiolosHttpClient request backoff/throttle and request-sending paths
  (`_handleHttpFailure`, `_resetBackoff`, `isConnectionThrottled`,
  `_performRequest`, `_performRawGet`, `fetchConfiguration`, the send wrappers;
  AiolosHttpClient.cpp),
* the main-loop offline safety orchestrator
  (`handleOfflineSafetyMechanisms`; main.cpp),
* the sleep-window decision `isSleepTime` (main.cpp) and the `powerOff`
  power-sequencing routine (ModemManager.cpp), the latter embedded together
  with a trace of its externally visible hardware actions.

Machine integers (`unsigned long`, `int`, `uint8_t`) are modelled as `Nat`/`Int`.
The firmware reads time with the monotone `millis()` counter; unsigned
subtractions `now - earlier` are modelled with truncated `Nat` subtraction,
which coincides with the C computation whenever `earlier <= now` (the only
reachable situation for a monotone clock); theorems carry that hypothesis
where it matters.
-/

/-! ### Constants (ModemManager.h, Config.h, AiolosHttpClient.h) -/

def MIN_BACKOFF_DELAY : Nat := 30000

def MAX_BACKOFF_DELAY : Nat := 300000

def MAX_CONSECUTIVE_FAILURES : Nat := 5

def MIN_RESET_INTERVAL : Nat := 300000

def UNRESPONSIVE_TIMEOUT : Nat := 180000

def MAX_OFFLINE_TIME : Nat := 3600000

def BACKOFF_RESET_INTERVAL : Nat := 1800000

def BASE_BACKOFF_DELAY_MS : Nat := 5000

def MAX_BACKOFF_DELAY_MS : Nat := 300000

/-! ### ModemManager connection-failure tracker (ModemManager.cpp) -/

/-- The connection-failure tracking fields of `ModemManager`
(ModemManager.h, private section). -/
structure ModemState where
  consecutiveFailures : Nat
  backoffDelay : Nat
  lastConnectionAttempt : Nat
  lastModemReset : Nat
  lastResponsiveTime : Nat
deriving Repr, DecidableEq

/-- `ModemManager::_recordConnectionFailure`: increment the failure count and
recompute `_backoffDelay = MIN_BACKOFF_DELAY * (1 << min(n-1, 4))`, capped at
`MAX_BACKOFF_DELAY`. -/
def recordConnectionFailure (st : ModemState) : ModemState :=
  let n := st.consecutiveFailures + 1
  let raw := MIN_BACKOFF_DELAY * 2 ^ (min (n - 1) 4)
  { st with consecutiveFailures := n, backoffDelay := min raw MAX_BACKOFF_DELAY }

/-- `ModemManager::_recordConnectionSuccess`: zero the failure count and the
backoff delay and refresh `_lastResponsiveTime` (via `_updateResponsiveTime`,
called at time `now`). -/
def recordConnectionSuccess (st : ModemState) (now : Nat) : ModemState :=
  { st with consecutiveFailures := 0, backoffDelay := 0, lastResponsiveTime := now }

/-- `n` consecutive `_recordConnectionFailure` calls with no intervening
success. -/
def iterFail : Nat → ModemState → ModemState
  | 0, st => st
  | n + 1, st => recordConnectionFailure (iterFail n st)

/-- `ModemManager::needsReset`: both the consecutive-failures branch and the
unresponsiveness branch additionally require `MIN_RESET_INTERVAL` to have
elapsed since `_lastModemReset`. -/
def needsReset (st : ModemState) (now : Nat) : Bool :=
  if MAX_CONSECUTIVE_FAILURES ≤ st.consecutiveFailures
      ∧ MIN_RESET_INTERVAL ≤ now - st.lastModemReset then
    true
  else if 0 < st.lastResponsiveTime
      ∧ UNRESPONSIVE_TIMEOUT < now - st.lastResponsiveTime
      ∧ MIN_RESET_INTERVAL ≤ now - st.lastModemReset then
    true
  else
    false

/-- `ModemManager::resetModem`: records `_lastModemReset = millis()` at entry
(time `now`), power-cycles the hardware, then probes responsiveness (outcome
`responsive`, observed at time `tEnd`).  On success it zeroes
`_consecutiveFailures` and refreshes `_lastResponsiveTime`; on failure it
returns `false` leaving the remaining fields as they were. -/
def resetModem (st : ModemState) (now tEnd : Nat) (responsive : Bool) :
    ModemState × Bool :=
  let st1 := { st with lastModemReset := now }
  if responsive then
    ({ st1 with consecutiveFailures := 0, lastResponsiveTime := tEnd }, true)
  else
    (st1, false)

/-! ### Helper lemmas for the failure tracker -/

lemma iterFail_consecutiveFailures (n : Nat) (st : ModemState) :
    (iterFail n st).consecutiveFailures = st.consecutiveFailures + n := by
  induction n with
  | zero => rfl
  | succ m ih => simp [iterFail, recordConnectionFailure, ih]; omega

lemma iterFail_backoffDelay (n : Nat) (st : ModemState)
    (h0 : st.consecutiveFailures = 0) (hn : 1 ≤ n) :
    (iterFail n st).backoffDelay
      = min (MIN_BACKOFF_DELAY * 2 ^ (min (n - 1) 4)) MAX_BACKOFF_DELAY := by
  obtain ⟨m, rfl⟩ : ∃ m, n = m + 1 := ⟨n - 1, by omega⟩
  show (recordConnectionFailure (iterFail m st)).backoffDelay = _
  simp [recordConnectionFailure, iterFail_consecutiveFailures, h0]

lemma capped_exponent_eq (m : Nat) :
    min (MIN_BACKOFF_DELAY * 2 ^ (min m 4)) MAX_BACKOFF_DELAY
      = min (MIN_BACKOFF_DELAY * 2 ^ m) MAX_BACKOFF_DELAY := by
  rcases le_or_lt m 4 with h | h
  · rw [min_eq_left h]
  · rw [min_eq_right (by omega : 4 ≤ m)]
    have h32 : 2 ^ 5 ≤ 2 ^ m := Nat.pow_le_pow_right (by norm_num) (by omega)
    have hbig : MAX_BACKOFF_DELAY ≤ MIN_BACKOFF_DELAY * 2 ^ m := by
      calc MAX_BACKOFF_DELAY ≤ MIN_BACKOFF_DELAY * 2 ^ 5 := by norm_num [MIN_BACKOFF_DELAY, MAX_BACKOFF_DELAY]
        _ ≤ MIN_BACKOFF_DELAY * 2 ^ m := Nat.mul_le_mul_left _ h32
    rw [min_eq_right (by norm_num [MIN_BACKOFF_DELAY, MAX_BACKOFF_DELAY] : MAX_BACKOFF_DELAY ≤ MIN_BACKOFF_DELAY * 2 ^ 4),
        min_eq_right hbig]

/-- Claim C1: starting from a freshly reset tracker, after `n ≥ 1` consecutive
recorded connection failures with no intervening success the backoff delay is
exactly `min (MIN_BACKOFF_DELAY * 2 ^ (n - 1)) MAX_BACKOFF_DELAY` (that is
30 s, 60 s, 120 s, 240 s, and 300 s for every `n ≥ 5`), the delay is
non-decreasing from each failure to the next and never exceeds
`MAX_BACKOFF_DELAY`, and a single recorded success resets both
`consecutiveFailures` and `backoffDelay` to zero. -/
theorem recordConnectionFailure_backoff_spec (st : ModemState) (n now : Nat)
    (h0 : st.consecutiveFailures = 0) (hn : 1 ≤ n) :
    (iterFail n st).backoffDelay
        = min (MIN_BACKOFF_DELAY * 2 ^ (n - 1)) MAX_BACKOFF_DELAY
      ∧ (iterFail n st).backoffDelay ≤ MAX_BACKOFF_DELAY
      ∧ (iterFail n st).backoffDelay ≤ (iterFail (n + 1) st).backoffDelay
      ∧ (5 ≤ n → (iterFail n st).backoffDelay = 300000)
      ∧ (recordConnectionSuccess (iterFail n st) now).consecutiveFailures = 0
      ∧ (recordConnectionSuccess (iterFail n st) now).backoffDelay = 0 := by
  have hform : ∀ k, 1 ≤ k → (iterFail k st).backoffDelay
      = min (MIN_BACKOFF_DELAY * 2 ^ (k - 1)) MAX_BACKOFF_DELAY := by
    intro k hk
    rw [iterFail_backoffDelay k st h0 hk, capped_exponent_eq]
  refine ⟨hform n hn, ?_, ?_, ?_, rfl, rfl⟩
  · rw [hform n hn]; exact min_le_right _ _
  · rw [hform n hn, hform (n + 1) (by omega)]
    refine min_le_min (Nat.mul_le_mul_left _ (Nat.pow_le_pow_right (by norm_num) (by omega))) le_rfl
  · intro h5
    rw [hform n hn, min_eq_right]
    · rfl
    · have h16 : 2 ^ 4 ≤ 2 ^ (n - 1) := Nat.pow_le_pow_right (by norm_num) (by omega)
      calc MAX_BACKOFF_DELAY ≤ MIN_BACKOFF_DELAY * 2 ^ 4 := by norm_num [MIN_BACKOFF_DELAY, MAX_BACKOFF_DELAY]
        _ ≤ MIN_BACKOFF_DELAY * 2 ^ (n - 1) := Nat.mul_le_mul_left _ h16

/-- Witness for C1: five consecutive failures from the zero tracker saturate
the delay at 300000 ms, and a success then clears both fields. -/
theorem recordConnectionFailure_backoff_spec_witness :
    (iterFail 5 ⟨0, 0, 0, 0, 0⟩).backoffDelay
        = min (MIN_BACKOFF_DELAY * 2 ^ 4) MAX_BACKOFF_DELAY
      ∧ (iterFail 5 ⟨0, 0, 0, 0, 0⟩).backoffDelay ≤ MAX_BACKOFF_DELAY
      ∧ (iterFail 5 ⟨0, 0, 0, 0, 0⟩).backoffDelay ≤ (iterFail 6 ⟨0, 0, 0, 0, 0⟩).backoffDelay
      ∧ (5 ≤ 5 → (iterFail 5 ⟨0, 0, 0, 0, 0⟩).backoffDelay = 300000)
      ∧ (recordConnectionSuccess (iterFail 5 ⟨0, 0, 0, 0, 0⟩) 777).consecutiveFailures = 0
      ∧ (recordConnectionSuccess (iterFail 5 ⟨0, 0, 0, 0, 0⟩) 777).backoffDelay = 0 :=
  recordConnectionFailure_backoff_spec ⟨0, 0, 0, 0, 0⟩ 5 777 rfl (by norm_num)

/-- Concrete tracker state refuting claim C4: the modem has been continuously
unresponsive for more than `UNRESPONSIVE_TIMEOUT`, yet `needsReset` is false
because `MIN_RESET_INTERVAL` has not elapsed since the last reset. -/
def needsResetCounterState : ModemState :=
  { consecutiveFailures := 0
    backoffDelay := 0
    lastConnectionAttempt := 0
    lastModemReset := 0
    lastResponsiveTime := 1 }

/-- Counterexample to claim C4: at `now = 200000` the unresponsiveness
disjunct of the claim holds (`lastResponsiveTime > 0` and
`now - lastResponsiveTime = 199999 > UNRESPONSIVE_TIMEOUT`), so the claim's
right-hand side is true, but `needsReset` returns false because
`now - lastModemReset = 200000 < MIN_RESET_INTERVAL`: the code attaches the
`MIN_RESET_INTERVAL` guard to the unresponsiveness branch as well. -/
theorem needsReset_claim_counterexample :
    needsReset needsResetCounterState 200000 = false
      ∧ 0 < needsResetCounterState.lastResponsiveTime
      ∧ UNRESPONSIVE_TIMEOUT < 200000 - needsResetCounterState.lastResponsiveTime
      ∧ needsResetCounterState.consecutiveFailures < MAX_CONSECUTIVE_FAILURES
      ∧ 200000 - needsResetCounterState.lastModemReset < MIN_RESET_INTERVAL := by
  refine ⟨?_, by decide, by decide, by decide, by decide⟩
  decide

/-- Claim C4 (amended): `needsReset now` is true iff `MIN_RESET_INTERVAL` has
elapsed since `lastModemReset` AND (either `consecutiveFailures ≥
MAX_CONSECUTIVE_FAILURES`, or the modem has been responsive at least once and
has been continuously unresponsive for longer than `UNRESPONSIVE_TIMEOUT`);
the `MIN_RESET_INTERVAL` guard applies to both disjuncts, not only to the
consecutive-failures one. -/
theorem needsReset_iff (st : ModemState) (now : Nat) :
    needsReset st now = true
      ↔ (MIN_RESET_INTERVAL ≤ now - st.lastModemReset
          ∧ (MAX_CONSECUTIVE_FAILURES ≤ st.consecutiveFailures
            ∨ (0 < st.lastResponsiveTime
                ∧ UNRESPONSIVE_TIMEOUT < now - st.lastResponsiveTime))) := by
  unfold needsReset
  split
  · next h => simp only [true_iff]; exact ⟨h.2, Or.inl h.1⟩
  · split
    · next h => simp only [true_iff]; exact ⟨h.2.2, Or.inr ⟨h.1, h.2.1⟩⟩
    · next h1 h2 =>
      simp only [Bool.false_eq_true, false_iff]
      intro ⟨hint, hor⟩
      rcases hor with hc | hu
      · exact h1 ⟨hc, hint⟩
      · exact h2 ⟨hu.1, hu.2, hint⟩

/-- Concrete failing state for claim C7: `resetModem` is called at time 7777
on a tracker whose `lastModemReset` is 0 and the reset fails. -/
def resetModemFailState : ModemState :=
  { consecutiveFailures := 5
    backoffDelay := 300000
    lastConnectionAttempt := 0
    lastModemReset := 0
    lastResponsiveTime := 0 }

/-- Counterexample to claim C7: when the reset fails (the modem stays
unresponsive), `consecutiveFailures` and `backoffDelay` are indeed unchanged,
but `lastModemReset` does NOT keep its previous value 0 — the code stamps
`_lastModemReset = millis()` at entry, before the outcome is known, so after
the failed call it equals the call time 7777. -/
theorem resetModem_claim_counterexample :
    (resetModem resetModemFailState 7777 9999 false).2 = false
      ∧ (resetModem resetModemFailState 7777 9999 false).1.lastModemReset = 7777
      ∧ resetModemFailState.lastModemReset = 0
      ∧ (7777 : Nat) ≠ 0 := by
  decide

/-- Claim C7 (amended): `resetModem` returns the probe outcome; it always
updates `lastModemReset` to the call time (on failure as well as on success);
on success it zeroes `consecutiveFailures` and refreshes
`lastResponsiveTime`; on failure it leaves `consecutiveFailures`,
`backoffDelay`, `lastConnectionAttempt` and `lastResponsiveTime` unchanged
(and it never changes `backoffDelay` or `lastConnectionAttempt`). -/
theorem resetModem_effect (st : ModemState) (now tEnd : Nat) (responsive : Bool) :
    (resetModem st now tEnd responsive).2 = responsive
      ∧ (resetModem st now tEnd responsive).1.lastModemReset = now
      ∧ (resetModem st now tEnd responsive).1.consecutiveFailures
          = (if responsive then 0 else st.consecutiveFailures)
      ∧ (resetModem st now tEnd responsive).1.backoffDelay = st.backoffDelay
      ∧ (resetModem st now tEnd responsive).1.lastConnectionAttempt = st.lastConnectionAttempt
      ∧ (resetModem st now tEnd responsive).1.lastResponsiveTime
          = (if responsive then tEnd else st.lastResponsiveTime) := by
  cases responsive <;> simp [resetModem]

/-! ### AiolosHttpClient backoff state (AiolosHttpClient.cpp) -/

/-- The HTTP backoff fields of `AiolosHttpClient` (AiolosHttpClient.h):
`_failedAttempts` is a `uint8_t` (saturated at 255 by the code),
`_backoffDelay` and `_lastAttemptTime` are `unsigned long`. -/
structure HttpBackoffState where
  failedAttempts : Nat
  backoffDelay : Nat
  lastAttemptTime : Nat
deriving Repr, DecidableEq

/-- `AiolosHttpClient::_handleHttpFailure` at time `now`: stamp
`_lastAttemptTime`, increment `_failedAttempts` (saturating below 255), and
recompute `_backoffDelay = BASE_BACKOFF_DELAY_MS * (1UL << min(f-1, 10))`,
capped at `MAX_BACKOFF_DELAY_MS`. -/
def handleHttpFailure (st : HttpBackoffState) (now : Nat) : HttpBackoffState :=
  let f := if st.failedAttempts < 255 then st.failedAttempts + 1 else st.failedAttempts
  let raw := BASE_BACKOFF_DELAY_MS * 2 ^ (min (f - 1) 10)
  { failedAttempts := f
    backoffDelay := if MAX_BACKOFF_DELAY_MS < raw then MAX_BACKOFF_DELAY_MS else raw
    lastAttemptTime := now }

/-- `AiolosHttpClient::_resetBackoff`: zero `_failedAttempts` and
`_backoffDelay` (only touching the state when there were failures;
`_lastAttemptTime` is left unchanged either way). -/
def resetBackoff (st : HttpBackoffState) : HttpBackoffState :=
  if 0 < st.failedAttempts then { st with failedAttempts := 0, backoffDelay := 0 }
  else st

/-- `AiolosHttpClient::isConnectionThrottled` at time `now`: not throttled when
there are no failed attempts, otherwise throttled while the elapsed time since
`_lastAttemptTime` is still below `_backoffDelay`. -/
def isConnectionThrottled (st : HttpBackoffState) (now : Nat) : Bool :=
  if st.failedAttempts = 0 then false
  else decide (now - st.lastAttemptTime < st.backoffDelay)

/-- Modelled from the spec: `AiolosHttpClient::resetBackoffForSafety` is called
by the offline safety orchestrator in main.cpp but its definition is not among
the provided sources.  Per the spec's backoff-amnesty description ("zero both
the Connection Failure Tracker and the HTTP Backoff State"), it zeroes the
HTTP backoff fields `failedAttempts` and `backoffDelay`. -/
def resetBackoffForSafety (st : HttpBackoffState) : HttpBackoffState :=
  { st with failedAttempts := 0, backoffDelay := 0 }

/-! ### Offline safety orchestrator (main.cpp, handleOfflineSafetyMechanisms) -/

/-- The main.cpp global state read and written by
`handleOfflineSafetyMechanisms`, together with the two backoff trackers it can
reach (`httpClient`'s backoff state, and `modemManager`'s connection-failure
tracker, which the handler never touches). -/
structure SafetyState where
  firstOfflineTime : Nat
  hasBeenOnlineRecently : Bool
  lastBackoffResetTime : Nat
  connectionFailureCount : Nat
  lastConnectionFailureTime : Nat
  emergencyRecoveryMode : Bool
  emergencyRecoveryStartTime : Nat
  http : HttpBackoffState
  modem : ModemState
deriving Repr, DecidableEq

/-- `handleOfflineSafetyMechanisms(currentMillis, isOnline)` (main.cpp):
returns the updated state together with `true` when the `MAX_OFFLINE_TIME`
forced full restart (`ESP.restart()`) fires on this call.  The periodic
offline-status log block (log-only, no state change) is omitted. -/
def handleOfflineSafety (st : SafetyState) (now : Nat) (isOnline : Bool) :
    SafetyState × Bool :=
  if isOnline then
    if !st.hasBeenOnlineRecently then
      ({ st with hasBeenOnlineRecently := true
                 firstOfflineTime := 0
                 lastBackoffResetTime := now }, false)
    else
      (st, false)
  else
    let st1 :=
      if st.hasBeenOnlineRecently then
        { st with firstOfflineTime := now
                  hasBeenOnlineRecently := false
                  lastBackoffResetTime := now }
      else st
    if 0 < st1.firstOfflineTime then
      if MAX_OFFLINE_TIME ≤ now - st1.firstOfflineTime then
        (st1, true)
      else if BACKOFF_RESET_INTERVAL ≤ now - st1.lastBackoffResetTime then
        let st2 := { st1 with http := resetBackoffForSafety st1.http
                              lastBackoffResetTime := now }
        let st3 :=
          if 0 < st2.connectionFailureCount then
            { st2 with connectionFailureCount := 0, lastConnectionFailureTime := 0 }
          else st2
        let st4 :=
          if st3.emergencyRecoveryMode then
            { st3 with emergencyRecoveryMode := false, emergencyRecoveryStartTime := 0 }
          else st3
        (st4, false)
      else
        (st1, false)
    else
      (st1, false)

/-- Run `handleOfflineSafety` over a list of loop-observation times, all with
`isOnline = false`; processing stops at the first forced restart (the device
reboots), whose observation time is returned. -/
def runOffline : SafetyState → List Nat → SafetyState × Option Nat
  | st, [] => (st, none)
  | st, t :: ts =>
    let r := handleOfflineSafety st t false
    if r.2 then (r.1, some t) else runOffline r.1 ts

lemma handleOfflineSafety_offline_step (st : SafetyState) (t : Nat)
    (hon : st.hasBeenOnlineRecently = false) (hT : 0 < st.firstOfflineTime) :
    ((handleOfflineSafety st t false).2 = true
        ↔ st.firstOfflineTime + MAX_OFFLINE_TIME ≤ t)
      ∧ (handleOfflineSafety st t false).1.firstOfflineTime = st.firstOfflineTime
      ∧ (handleOfflineSafety st t false).1.hasBeenOnlineRecently = false := by
  have hiff : MAX_OFFLINE_TIME ≤ t - st.firstOfflineTime
      ↔ st.firstOfflineTime + MAX_OFFLINE_TIME ≤ t := by
    simp only [MAX_OFFLINE_TIME]; omega
  unfold handleOfflineSafety
  simp only [Bool.false_eq_true, if_false, hon, if_pos hT]
  rcases le_or_lt MAX_OFFLINE_TIME (t - st.firstOfflineTime) with h | h
  · rw [if_pos h]
    exact ⟨by simpa using hiff.mp h, rfl, hon⟩
  · rw [if_neg (by omega)]
    rcases le_or_lt BACKOFF_RESET_INTERVAL (t - st.lastBackoffResetTime) with h2 | h2
    · rw [if_pos h2]
      refine ⟨by simp; omega, ?_, ?_⟩ <;> split <;> split <;> simp [hon]
    · rw [if_neg (by omega)]
      exact ⟨by simp; omega, rfl, hon⟩

lemma runOffline_find (st : SafetyState) (ts : List Nat)
    (hon : st.hasBeenOnlineRecently = false) (hT : 0 < st.firstOfflineTime) :
    (runOffline st ts).2
      = ts.find? (fun t => decide (st.firstOfflineTime + MAX_OFFLINE_TIME ≤ t)) := by
  induction ts generalizing st with
  | nil => rfl
  | cons t ts ih =>
    obtain ⟨hfired, hfo, hob⟩ := handleOfflineSafety_offline_step st t hon hT
    show (if (handleOfflineSafety st t false).2 then _ else
        runOffline (handleOfflineSafety st t false).1 ts).2 = _
    rcases le_or_lt (st.firstOfflineTime + MAX_OFFLINE_TIME) t with h | h
    · rw [if_pos (hfired.mpr h), List.find?_cons_of_pos _ (by simpa using h)]
    · have hnf : (handleOfflineSafety st t false).2 = false := by
        cases hv : (handleOfflineSafety st t false).2
        · rfl
        · exact absurd (hfired.mp hv) (by omega)
      rw [hnf, if_neg (by simp), List.find?_cons_of_neg _ (by simpa using h)]
      rw [ih _ hob (hfo ▸ hT), hfo]

/-- Claim C2: if the device was last observed online
(`hasBeenOnlineRecently = true`) and an `isOnline = false` observation occurs
at loop time `T > 0`, then that call sets `firstOfflineTime = T` and does not
itself restart; over any subsequent sequence of `isOnline = false`
observations, the forced full restart fires exactly at the first observation
whose time is `≥ T + MAX_OFFLINE_TIME` (and is never fired by an earlier
observation); `runOffline` stops at the restart, so it fires exactly once. -/
theorem offline_restart_timing (st : SafetyState) (T : Nat) (ts : List Nat)
    (hon : st.hasBeenOnlineRecently = true) (hT : 0 < T) :
    (handleOfflineSafety st T false).2 = false
      ∧ (handleOfflineSafety st T false).1.firstOfflineTime = T
      ∧ (runOffline (handleOfflineSafety st T false).1 ts).2
          = ts.find? (fun t => decide (T + MAX_OFFLINE_TIME ≤ t)) := by
  have hstep : handleOfflineSafety st T false
      = ({ st with firstOfflineTime := T, hasBeenOnlineRecently := false,
                   lastBackoffResetTime := T }, false) := by
    unfold handleOfflineSafety
    simp only [Bool.false_eq_true, if_false, hon, if_true]
    rw [if_pos (by simpa using hT)]
    rw [if_neg (by simp only [MAX_OFFLINE_TIME]; omega)]
    rw [if_neg (by simp only [BACKOFF_RESET_INTERVAL]; omega)]
  refine ⟨by rw [hstep], by rw [hstep], ?_⟩
  rw [hstep]
  exact runOffline_find _ ts rfl (by simpa using hT)

/-- A concrete online safety state used to witness C2. -/
def onlineSafetyState : SafetyState :=
  { firstOfflineTime := 0
    hasBeenOnlineRecently := true
    lastBackoffResetTime := 50
    connectionFailureCount := 0
    lastConnectionFailureTime := 0
    emergencyRecoveryMode := false
    emergencyRecoveryStartTime := 0
    http := ⟨0, 0, 0⟩
    modem := ⟨0, 0, 0, 0, 0⟩ }

/-- Witness for C2: going offline at `T = 100`, the observations at
`1800100` and `3700099` (the latter just below `T + MAX_OFFLINE_TIME`) do
not restart, and the restart fires at the observation `3700100 = 100 +
3600000 + 100000`, the first one at or past `T + MAX_OFFLINE_TIME`. -/
theorem offline_restart_timing_witness :
    (handleOfflineSafety onlineSafetyState 100 false).2 = false
      ∧ (handleOfflineSafety onlineSafetyState 100 false).1.firstOfflineTime = 100
      ∧ (runOffline (handleOfflineSafety onlineSafetyState 100 false).1
            [1800100, 3600099, 3700100, 9999999]).2 = some 3700100 := by
  obtain ⟨h1, h2, h3⟩ :=
    offline_restart_timing onlineSafetyState 100 [1800100, 3600099, 3700100, 9999999]
      rfl (by norm_num)
  exact ⟨h1, h2, by rw [h3]; rfl⟩

lemma handleOfflineSafety_neverOnline (st : SafetyState) (t : Nat)
    (hon : st.hasBeenOnlineRecently = false) (h0 : st.firstOfflineTime = 0) :
    handleOfflineSafety st t false = (st, false) := by
  unfold handleOfflineSafety
  simp only [Bool.false_eq_true, if_false, hon]
  rw [if_neg (by simp [h0])]

/-- Claim C8: if the device has never been observed online since boot
(`hasBeenOnlineRecently = false` and `firstOfflineTime = 0`, exactly how
`setup()` initialises the safety state), then any sequence of
`isOnline = false` loop observations leaves the entire safety state unchanged
— in particular `firstOfflineTime` stays 0, no backoff amnesty fires, no
tracker is touched — and the `MAX_OFFLINE_TIME` forced restart never
triggers. -/
theorem never_online_no_safety_action (st : SafetyState) (ts : List Nat)
    (hon : st.hasBeenOnlineRecently = false) (h0 : st.firstOfflineTime = 0) :
    runOffline st ts = (st, none) := by
  induction ts with
  | nil => rfl
  | cons t ts ih =>
    show (if (handleOfflineSafety st t false).2 then _ else
        runOffline (handleOfflineSafety st t false).1 ts) = _
    rw [handleOfflineSafety_neverOnline st t hon h0]
    simpa using ih

/-- The safety state as initialised by `setup()` in main.cpp at boot time
`now` (`hasBeenOnlineRecently = false`, `firstOfflineTime = 0`,
`lastBackoffResetTime = millis()`), with both trackers zeroed. -/
def bootSafetyState (now : Nat) : SafetyState :=
  { firstOfflineTime := 0
    hasBeenOnlineRecently := false
    lastBackoffResetTime := now
    connectionFailureCount := 0
    lastConnectionFailureTime := 0
    emergencyRecoveryMode := false
    emergencyRecoveryStartTime := 0
    http := ⟨0, 0, 0⟩
    modem := ⟨0, 0, 0, 0, 0⟩ }

/-- Witness for C8: from the boot state, offline observations spanning far
more than `MAX_OFFLINE_TIME` and `BACKOFF_RESET_INTERVAL` produce no restart
and no state change at all. -/
theorem never_online_no_safety_action_witness :
    runOffline (bootSafetyState 5) [6, 1800006, 3600006, 7200006, 99999999]
      = (bootSafetyState 5, none) :=
  never_online_no_safety_action (bootSafetyState 5)
    [6, 1800006, 3600006, 7200006, 99999999] rfl rfl

/-- A concrete offline safety state at which the backoff amnesty fires while
the ModemManager connection-failure tracker holds non-zero values. -/
def amnestyCounterState : SafetyState :=
  { firstOfflineTime := 1000
    hasBeenOnlineRecently := false
    lastBackoffResetTime := 1000
    connectionFailureCount := 2
    lastConnectionFailureTime := 900
    emergencyRecoveryMode := true
    emergencyRecoveryStartTime := 950
    http := ⟨4, 40000, 800⟩
    modem := ⟨3, 120000, 0, 0, 0⟩ }

/-- Counterexample to claim C3: at `now = 1801000` (exactly
`BACKOFF_RESET_INTERVAL` after going offline) the amnesty fires — the HTTP
backoff state is zeroed, the orchestrator's own failure counter is zeroed and
emergency recovery is exited — yet the ModemManager-owned Connection Failure
Tracker keeps `consecutiveFailures = 3` and `backoffDelay = 120000`: the
orchestrator never touches it, contradicting the claim that BOTH trackers are
zeroed. -/
theorem amnesty_modem_tracker_counterexample :
    BACKOFF_RESET_INTERVAL ≤ 1801000 - amnestyCounterState.lastBackoffResetTime
      ∧ (handleOfflineSafety amnestyCounterState 1801000 false).2 = false
      ∧ (handleOfflineSafety amnestyCounterState 1801000 false).1.http.failedAttempts = 0
      ∧ (handleOfflineSafety amnestyCounterState 1801000 false).1.http.backoffDelay = 0
      ∧ (handleOfflineSafety amnestyCounterState 1801000 false).1.connectionFailureCount = 0
      ∧ (handleOfflineSafety amnestyCounterState 1801000 false).1.emergencyRecoveryMode = false
      ∧ (handleOfflineSafety amnestyCounterState 1801000 false).1.modem.consecutiveFailures = 3
      ∧ (handleOfflineSafety amnestyCounterState 1801000 false).1.modem.backoffDelay = 120000 := by
  decide

/-- Claim C3 (amended): while the device remains continuously offline and the
`MAX_OFFLINE_TIME` restart has not yet fired, at each elapse of
`BACKOFF_RESET_INTERVAL` (measured from `lastBackoffResetTime`, which the
online→offline transition initialises to `firstOfflineTime`) the orchestrator
zeroes the HTTP Backoff State (`failedAttempts` and `backoffDelay`, via the
spec-modelled `resetBackoffForSafety`) and its own connection-failure counter
(`connectionFailureCount`, clearing `lastConnectionFailureTime` when the
counter was positive), exits emergency recovery if active, and re-arms the
interval timer; before the interval elapses none of these fields change.  The
ModemManager-owned tracker (`consecutiveFailures`, `backoffDelay`) is never
touched by the orchestrator, in either case. -/
theorem offline_amnesty_effect (st : SafetyState) (now : Nat)
    (hon : st.hasBeenOnlineRecently = false) (hT : 0 < st.firstOfflineTime)
    (hnr : now - st.firstOfflineTime < MAX_OFFLINE_TIME) :
    (handleOfflineSafety st now false).2 = false
      ∧ (handleOfflineSafety st now false).1.modem = st.modem
      ∧ (BACKOFF_RESET_INTERVAL ≤ now - st.lastBackoffResetTime →
          (handleOfflineSafety st now false).1.http.failedAttempts = 0
            ∧ (handleOfflineSafety st now false).1.http.backoffDelay = 0
            ∧ (handleOfflineSafety st now false).1.connectionFailureCount = 0
            ∧ (handleOfflineSafety st now false).1.lastConnectionFailureTime
                = (if 0 < st.connectionFailureCount then 0 else st.lastConnectionFailureTime)
            ∧ (handleOfflineSafety st now false).1.emergencyRecoveryMode = false
            ∧ (handleOfflineSafety st now false).1.lastBackoffResetTime = now)
      ∧ (now - st.lastBackoffResetTime < BACKOFF_RESET_INTERVAL →
          (handleOfflineSafety st now false).1.http = st.http
            ∧ (handleOfflineSafety st now false).1.connectionFailureCount
                = st.connectionFailureCount
            ∧ (handleOfflineSafety st now false).1.lastConnectionFailureTime
                = st.lastConnectionFailureTime
            ∧ (handleOfflineSafety st now false).1.emergencyRecoveryMode
                = st.emergencyRecoveryMode
            ∧ (handleOfflineSafety st now false).1.lastBackoffResetTime
                = st.lastBackoffResetTime) := by
  unfold handleOfflineSafety
  simp only [Bool.false_eq_true, if_false, hon, if_pos hT]
  rw [if_neg (by omega)]
  rcases le_or_lt BACKOFF_RESET_INTERVAL (now - st.lastBackoffResetTime) with h2 | h2
  · rw [if_pos h2]
    refine ⟨rfl, ?_, fun _ => ?_, fun hc => absurd h2 (by omega)⟩
    · split <;> split <;> simp [resetBackoffForSafety]
    · refine ⟨?_, ?_, ?_, ?_, ?_, ?_⟩ <;> split <;> (try split) <;>
        simp_all [resetBackoffForSafety]
  · rw [if_neg (by omega)]
    exact ⟨rfl, rfl, fun hc => absurd hc (by omega), fun _ => ⟨rfl, rfl, rfl, rfl, rfl⟩⟩

/-- Witness for C3 (amended): on `amnestyCounterState` at `now = 1801000` the
amnesty fires with the stated effect, and at `now = 1800999` (one millisecond
earlier) nothing changes. -/
theorem offline_amnesty_effect_witness :
    ((handleOfflineSafety amnestyCounterState 1801000 false).2 = false
        ∧ (handleOfflineSafety amnestyCounterState 1801000 false).1.modem
            = amnestyCounterState.modem
        ∧ (handleOfflineSafety amnestyCounterState 1801000 false).1.http.failedAttempts = 0
        ∧ (handleOfflineSafety amnestyCounterState 1801000 false).1.lastBackoffResetTime
            = 1801000)
      ∧ ((handleOfflineSafety amnestyCounterState 1800999 false).1.http
            = amnestyCounterState.http
        ∧ (handleOfflineSafety amnestyCounterState 1800999 false).1.connectionFailureCount
            = amnestyCounterState.connectionFailureCount) := by
  have hfire := offline_amnesty_effect amnestyCounterState 1801000 rfl (by decide)
    (by decide)
  have hidle := offline_amnesty_effect amnestyCounterState 1800999 rfl (by decide)
    (by decide)
  have hf := hfire.2.2.1 (by decide)
  have hi := hidle.2.2.2 (by decide)
  exact ⟨⟨hfire.1, hfire.2.1, hf.1, hf.2.2.2.2.2⟩, hi.1, hi.2.1⟩

/-! ### HTTP request paths (AiolosHttpClient.cpp) -/

/-- A backoff update performed by the HTTP client: `failure` marks a call of
`_handleHttpFailure`, `success` a call of `_resetBackoff`. -/
inductive BackoffEvent where
  | failure
  | success
deriving Repr, DecidableEq

/-- Outcome of the network interaction inside `_performRequest`:
`connectErr e` models `post`/`get` returning the nonzero library error `e`;
`headerFail s` models `skipResponseHeaders() < 0` after status `s` was read;
`ok s` models a response with status code `s` whose body was read (the body
itself is irrelevant here and omitted). -/
inductive HttpOutcome where
  | connectErr (e : Int)
  | headerFail (s : Int)
  | ok (s : Int)
deriving Repr, DecidableEq

/-- `AiolosHttpClient::_performRequest` over the backoff state: `netUp` models
`isNetworkConnected() && isGprsConnected()`, `inited` models
`_modemManager != nullptr`, `now` is the entry time (used by the throttle
check) and `tDone` the time at which a backoff update is recorded.  Returns
the new backoff state, the list of backoff updates performed, and the returned
status code.  2xx status codes reset the backoff; connect errors, header
failures and non-2xx status codes increment it. -/
def performRequest (netUp inited : Bool) (st : HttpBackoffState) (now tDone : Nat)
    (o : HttpOutcome) : HttpBackoffState × List BackoffEvent × Int :=
  if isConnectionThrottled st now then (st, [], 0)
  else if !inited then (st, [], 0)
  else if !netUp then (st, [], 0)
  else
    match o with
    | .connectErr e => (handleHttpFailure st tDone, [.failure], e)
    | .headerFail _ => (handleHttpFailure st tDone, [.failure], 0)
    | .ok s =>
      if 200 ≤ s ∧ s < 300 then (resetBackoff st, [.success], s)
      else (handleHttpFailure st tDone, [.failure], s)

/-- Outcome of the network interaction inside `_performRawGet`:
`connectFail` models `_client->connect` failing, `respTimeout` the 10 s wait
for a response expiring, `badStatusLine` a status line not starting with
"HTTP/1.1 ", `allocFail` the body-buffer `malloc` failing, and `ok s` a
response with parsed status code `s`. -/
inductive RawOutcome where
  | connectFail
  | respTimeout
  | badStatusLine
  | allocFail
  | ok (s : Int)
deriving Repr, DecidableEq

/-- `AiolosHttpClient::_performRawGet` over the backoff state, analogous to
`performRequest`.  Every pre-response failure records one backoff failure and
returns 0; a parsed response records exactly one update according to the 2xx
classification and returns the status code. -/
def performRawGet (netUp inited : Bool) (st : HttpBackoffState) (now tDone : Nat)
    (o : RawOutcome) : HttpBackoffState × List BackoffEvent × Int :=
  if isConnectionThrottled st now then (st, [], 0)
  else if !inited || !netUp then (st, [], 0)
  else
    match o with
    | .connectFail => (handleHttpFailure st tDone, [.failure], 0)
    | .respTimeout => (handleHttpFailure st tDone, [.failure], 0)
    | .badStatusLine => (handleHttpFailure st tDone, [.failure], 0)
    | .allocFail => (handleHttpFailure st tDone, [.failure], 0)
    | .ok s =>
      if 200 ≤ s ∧ s < 300 then (resetBackoff st, [.success], s)
      else (handleHttpFailure st tDone, [.failure], s)

/-- `AiolosHttpClient::sendDiagnostics`: wraps `_performRequest` (POST
.../diagnostics) and reports whether the status code was 2xx. -/
def sendDiagnostics (netUp inited : Bool) (st : HttpBackoffState) (now tDone : Nat)
    (o : HttpOutcome) : HttpBackoffState × List BackoffEvent × Bool :=
  let r := performRequest netUp inited st now tDone o
  (r.1, r.2.1, decide (200 ≤ r.2.2 ∧ r.2.2 < 300))

/-- `AiolosHttpClient::sendWindData`: wraps `_performRequest` (POST
.../wind) and reports whether the status code was 2xx. -/
def sendWindData (netUp inited : Bool) (st : HttpBackoffState) (now tDone : Nat)
    (o : HttpOutcome) : HttpBackoffState × List BackoffEvent × Bool :=
  let r := performRequest netUp inited st now tDone o
  (r.1, r.2.1, decide (200 ≤ r.2.2 ∧ r.2.2 < 300))

/-- `AiolosHttpClient::sendTemperatureData`: wraps `_performRequest` (POST
.../temperature) and reports whether the status code was 2xx. -/
def sendTemperatureData (netUp inited : Bool) (st : HttpBackoffState) (now tDone : Nat)
    (o : HttpOutcome) : HttpBackoffState × List BackoffEvent × Bool :=
  let r := performRequest netUp inited st now tDone o
  (r.1, r.2.1, decide (200 ≤ r.2.2 ∧ r.2.2 < 300))

/-- `AiolosHttpClient::confirmOtaStarted`: wraps `_performRequest` (POST
.../ota-confirm) and reports whether the status code was 2xx. -/
def confirmOtaStarted (netUp inited : Bool) (st : HttpBackoffState) (now tDone : Nat)
    (o : HttpOutcome) : HttpBackoffState × List BackoffEvent × Bool :=
  let r := performRequest netUp inited st now tDone o
  (r.1, r.2.1, decide (200 ≤ r.2.2 ∧ r.2.2 < 300))

/-- `AiolosHttpClient::fetchConfiguration`: performs `_performRawGet` on the
config path; on a 2xx status it parses the JSON body (`parseOk` models
`deserializeJson` succeeding) — a parse error calls `_handleHttpFailure`
again (at time `tParse`) on top of whatever update the raw GET already
performed.  Returns the final backoff state, all backoff updates performed,
and the success flag. -/
def fetchConfiguration (netUp inited : Bool) (st : HttpBackoffState)
    (now tDone tParse : Nat) (o : RawOutcome) (parseOk : Bool) :
    HttpBackoffState × List BackoffEvent × Bool :=
  let r := performRawGet netUp inited st now tDone o
  if 200 ≤ r.2.2 ∧ r.2.2 < 300 then
    if parseOk then (r.1, r.2.1, true)
    else (handleHttpFailure r.1 tParse, r.2.1 ++ [.failure], false)
  else
    (r.1, r.2.1, false)

/-- Claim C10: if the HTTP client is throttled at entry, `_performRequest`
returns 0 immediately: the whole backoff state (`failedAttempts`,
`backoffDelay`, `lastAttemptTime`) is unchanged, no backoff update is
recorded, and the result does not depend on the network outcome `o` — no
network I/O is performed. -/
theorem performRequest_throttled_frame (netUp inited : Bool)
    (st : HttpBackoffState) (now tDone : Nat) (o : HttpOutcome)
    (h : isConnectionThrottled st now = true) :
    performRequest netUp inited st now tDone o = (st, [], 0) := by
  simp [performRequest, h]

/-- Witness for C10: with one failed attempt, a 5000 ms backoff and the last
attempt recorded at time 100, the client is throttled at `now = 100` and a
request that would have produced a 200 response changes nothing. -/
theorem performRequest_throttled_frame_witness :
    isConnectionThrottled ⟨1, 5000, 100⟩ 100 = true
      ∧ performRequest true true ⟨1, 5000, 100⟩ 100 200 (.ok 200)
          = (⟨1, 5000, 100⟩, [], 0) :=
  ⟨by decide, performRequest_throttled_frame true true ⟨1, 5000, 100⟩ 100 200 (.ok 200)
      (by decide)⟩

/-- The success/failure classification of a status code: "2xx = success,
everything else = failure" (spec §4.4). -/
def statusEvent (s : Int) : BackoffEvent :=
  if 200 ≤ s ∧ s < 300 then .success else .failure

/-- Counterexample to claim C6: a configuration fetch that receives a 2xx
response with a malformed JSON body performs TWO backoff updates, not exactly
one — `_performRawGet` resets the backoff on seeing the 2xx status, then
`fetchConfiguration` records a failure for the parse error.  Starting from 3
failed attempts, the net result is `failedAttempts = 1`, not 4. -/
theorem fetchConfiguration_double_update_counterexample :
    fetchConfiguration true true ⟨3, 20000, 0⟩ 50000 50001 50002 (.ok 200) false
        = (⟨1, 5000, 50002⟩, [.success, .failure], false)
      ∧ [BackoffEvent.success, BackoffEvent.failure].length ≠ 1 := by
  decide

/-- Claim C6 (amended): every request-sending operation (diagnostics push,
wind push, temperature push, configuration fetch, OTA confirm) consults the
throttle predicate first and performs no backoff update when throttled; when
the request is attempted, `_performRequest` and `_performRawGet` perform
exactly one backoff update, classifying a 2xx status as success and
everything else (transport/connect errors, header failures, bad status lines,
timeouts, non-2xx statuses) as failure, and the four send wrappers inherit
this behaviour; the configuration fetch is the exception to "exactly one":
for a 2xx status with a malformed JSON body it performs a success update (in
the raw GET) followed by a failure update. -/
theorem http_requests_backoff_discipline (st : HttpBackoffState)
    (now tDone tParse : Nat) (o : HttpOutcome) (ro : RawOutcome) (parseOk : Bool) :
    (performRequest true true st now tDone o).2.1
        = (if isConnectionThrottled st now then []
            else [match o with | .ok s => statusEvent s | _ => .failure])
      ∧ (performRawGet true true st now tDone ro).2.1
          = (if isConnectionThrottled st now then []
              else [match ro with | .ok s => statusEvent s | _ => .failure])
      ∧ (sendDiagnostics true true st now tDone o).2.1
          = (performRequest true true st now tDone o).2.1
      ∧ (sendWindData true true st now tDone o).2.1
          = (performRequest true true st now tDone o).2.1
      ∧ (sendTemperatureData true true st now tDone o).2.1
          = (performRequest true true st now tDone o).2.1
      ∧ (confirmOtaStarted true true st now tDone o).2.1
          = (performRequest true true st now tDone o).2.1
      ∧ (fetchConfiguration true true st now tDone tParse ro parseOk).2.1
          = (if isConnectionThrottled st now then []
              else match ro with
                | .ok s =>
                  if 200 ≤ s ∧ s < 300 then
                    (if parseOk then [BackoffEvent.success]
                      else [BackoffEvent.success, BackoffEvent.failure])
                  else [BackoffEvent.failure]
                | _ => [BackoffEvent.failure]) := by
  refine ⟨?_, ?_, rfl, rfl, rfl, rfl, ?_⟩
  · cases hthr : isConnectionThrottled st now <;>
      cases o <;> simp [performRequest, hthr, statusEvent] <;> split <;> simp_all
  · cases hthr : isConnectionThrottled st now <;>
      cases ro <;> simp [performRawGet, hthr, statusEvent] <;> split <;> simp_all
  · cases hthr : isConnectionThrottled st now <;>
      cases ro <;> cases parseOk <;>
        simp [fetchConfiguration, performRawGet, hthr, statusEvent] <;>
        split <;> simp_all

/-! ### Sleep-window decision (main.cpp, isSleepTime, production build) -/

/-- `isSleepTime()` (main.cpp, non-DEBUG build) as a function of the globals
it reads: `currentHour`/`currentMinute`/`currentSecond` (ints, set from
network time), `lastNetworkTimeUpdate` and `millis()` (`now`), and the
configured window `dynamicSleepStartHour`/`dynamicSleepEndHour`.  It refuses
(returns false) when the time globals are all zero (the code's "network time
not yet obtained" heuristic), when the network time is stale by more than two
hours, or when any hour value is outside 0..23; `start == end` means no sleep
window; `start < end` is a same-day window, `start > end` a midnight-crossing
window. -/
def isSleepTime (h m s : Int) (lastNetworkTimeUpdate now : Nat)
    (startH endH : Int) : Bool :=
  if h = 0 ∧ m = 0 ∧ s = 0 then false
  else if 0 < lastNetworkTimeUpdate
      ∧ 2 * 3600 * 1000 < now - lastNetworkTimeUpdate then false
  else if h < 0 ∨ 23 < h ∨ startH < 0 ∨ 23 < startH ∨ endH < 0 ∨ 23 < endH then false
  else if startH = endH then false
  else if startH < endH then decide (startH ≤ h ∧ h < endH)
  else decide (startH ≤ h ∨ h < endH)

/-- Claim C5: whenever valid, non-stale network time is available (the time
globals pass the code's synchronization heuristic, the staleness threshold
has not elapsed, and the hour is a real hour 0..23): with start=22, end=9 the
check is true exactly for hours {22,23,0,...,8}; with start=2, end=6 it is
true exactly for hours {2,3,4,5}; with start = end it is always false — even
unconditionally; and it conservatively returns false whenever the time
source has not been synchronized (all-zero time) or is stale beyond the
two-hour threshold. -/
theorem isSleepTime_window_spec (h m s : Int) (lu now : Nat) (startH endH : Int) :
    (¬(h = 0 ∧ m = 0 ∧ s = 0) → ¬(0 < lu ∧ 7200000 < now - lu) →
        0 ≤ h → h ≤ 23 →
        (isSleepTime h m s lu now 22 9 = true ↔ (22 ≤ h ∨ h ≤ 8)))
      ∧ (¬(h = 0 ∧ m = 0 ∧ s = 0) → ¬(0 < lu ∧ 7200000 < now - lu) →
          0 ≤ h → h ≤ 23 →
          (isSleepTime h m s lu now 2 6 = true ↔ (2 ≤ h ∧ h ≤ 5)))
      ∧ isSleepTime h m s lu now startH startH = false
      ∧ (h = 0 ∧ m = 0 ∧ s = 0 → isSleepTime h m s lu now startH endH = false)
      ∧ (0 < lu → 7200000 < now - lu → isSleepTime h m s lu now startH endH = false) := by
  refine ⟨?_, ?_, ?_, ?_, ?_⟩
  · intro hsync hstale h0 h23
    unfold isSleepTime
    rw [if_neg hsync, if_neg (by simpa using hstale),
        if_neg (by push_neg; omega), if_neg (by omega), if_neg (by omega)]
    simp; omega
  · intro hsync hstale h0 h23
    unfold isSleepTime
    rw [if_neg hsync, if_neg (by simpa using hstale),
        if_neg (by push_neg; omega), if_neg (by omega), if_pos (by omega)]
    simp; omega
  · unfold isSleepTime
    split
    · rfl
    · split
      · rfl
      · split
        · rfl
        · rw [if_pos rfl]
  · intro hz
    unfold isSleepTime
    rw [if_pos hz]
  · intro hlu hstale
    unfold isSleepTime
    split
    · rfl
    · rw [if_pos ⟨hlu, by simpa using hstale⟩]

/-- Witness for C5: at 23:15:00 with fresh network time the 22→9 window is
active; at 03:00:05 the 2→6 window is active; at 00:00:00 (the code's
unsynchronized-time heuristic) the check is false. -/
theorem isSleepTime_window_spec_witness :
    (isSleepTime 23 15 0 1000 2000 22 9 = true ↔ ((22:Int) ≤ 23 ∨ (23:Int) ≤ 8))
      ∧ (isSleepTime 3 0 5 1000 2000 2 6 = true ↔ ((2:Int) ≤ 3 ∧ (3:Int) ≤ 5))
      ∧ isSleepTime 0 0 0 1000 2000 9 9 = false := by
  refine ⟨?_, ?_, ?_⟩
  · exact (isSleepTime_window_spec 23 15 0 1000 2000 9 9).1
      (by norm_num) (by norm_num) (by norm_num) (by norm_num)
  · exact (isSleepTime_window_spec 3 0 5 1000 2000 9 9).2.1
      (by norm_num) (by norm_num) (by norm_num) (by norm_num)
  · exact (isSleepTime_window_spec 0 0 0 1000 2000 9 9).2.2.1

/-! ### Modem power-off sequencing (ModemManager.cpp, powerOff) -/

/-- Externally visible actions of `ModemManager::powerOff`: `probe` is a
liveness probe (`_modem.testAT`), `pinHigh`/`pinLow` are writes of the
PWR_PIN control line, `cpowd` is a software power-down command (`AT+CPOWD=1`,
including the one sent by TinyGSM's `poweroff()`). -/
inductive PowerAction where
  | probe
  | pinHigh
  | pinLow
  | cpowd
deriving Repr, DecidableEq

/-- `ModemManager::powerOff` as a function of the entry liveness probe's
outcome, returning the reported result together with the ordered trace of its
hardware actions.  Responsive branch: pin the control line to the
off-maintaining level, send `AT+CPOWD=1` three times plus TinyGSM's
`poweroff()`, reinforce the pin level.  Unresponsive branch: a hardware
power-off pulse (line low 1200 ms, then back high). -/
def powerOff (responsive : Bool) : Bool × List PowerAction :=
  if responsive then
    (true, [.probe, .pinHigh, .cpowd, .cpowd, .cpowd, .cpowd, .pinHigh])
  else
    (true, [.probe, .pinLow, .pinHigh])

/-- Claim C9: `powerOff` reports success on every execution path — both the
software power-down branch (modem responsive) and the hardware-pulse branch
(modem unresponsive) — so it can never return failure; and the only liveness
probe in its action trace is the one at entry: after commanding shutdown it
never probes the modem again. -/
theorem powerOff_always_true (responsive : Bool) :
    (powerOff responsive).1 = true
      ∧ (powerOff responsive).2.head? = some .probe
      ∧ PowerAction.probe ∉ (powerOff responsive).2.tail := by
  cases responsive <;> exact ⟨rfl, rfl, by decide⟩
